import Mathlib

/-!
Verification development for the Wi-Fi fading monitoring system (app.py).

The embedding below models the core pipeline of the source file:
the fading classifier (class FadingDetector, function detect_fading),
the AI analyzer (class AIAnalyzer, function analyze_fading), and one
tick of the monitoring loop (function collect_and_process_data).
RSSI values are rationals, since the source derives them as
percent / 2 - 100, which yields multiples of 0.5 dBm.  External effects
(the netsh sampler and the Groq network call) enter the model as inputs:
a tick receives the sampler result as an Option and the collaborator
response as an Except value.
-/

namespace WifiFading

/-- Threshold constants from app.py lines 32 to 36. -/
def FAST_FADING_THRESHOLD : ℚ := 10

/-- Minimum variation in dBm for the moderate-variation rule. -/
def MODERATE_VARIATION_THRESHOLD : ℚ := 6

/-- Minimum total drop in dBm for the slow-fading rule. -/
def SLOW_FADING_THRESHOLD : ℚ := 8

/-- Minimum number of oscillations for the multipath rule. -/
def MULTIPATH_OSCILLATION_COUNT : Nat := 3

/-- Minimum per-oscillation variation in dBm for the multipath rule. -/
def MULTIPATH_OSCILLATION_THRESHOLD : ℚ := 5

/-- Embeds the Python generator all(w[i] >= w[i+1] for i in range(len(w)-1))
from app.py line 149: the list is non-increasing at every consecutive pair. -/
def isDeclining : List ℚ → Bool
  | a :: b :: rest => decide (a ≥ b) && isDeclining (b :: rest)
  | _ => true

/-- Embeds the oscillation counter of app.py lines 161 to 164: the number of
consecutive pairs whose absolute difference reaches the oscillation
threshold. -/
def oscilacoes : List ℚ → Nat
  | a :: b :: rest =>
      (if |a - b| ≥ MULTIPATH_OSCILLATION_THRESHOLD then 1 else 0) +
        oscilacoes (b :: rest)
  | _ => 0

/-- Embeds historico.tail(5): the last five entries of the history (all of it
when it is shorter). -/
def ultimos5 (historico : List ℚ) : List ℚ :=
  historico.drop (historico.length - 5)

namespace FadingDetector

/-- Embeds FadingDetector.detect_fading (app.py lines 112 to 176).  The
history list holds the rssi column of the session DataFrame, in arrival
order; novo_rssi is the sample being classified, which the caller has not
yet appended.  The Python indexing ultimos_5[-1] and ultimos_5[0] become
getLastD and headD; both lists are nonempty on every path that uses them. -/
def detect_fading (novo_rssi : ℚ) (historico : List ℚ) : Option String :=
  if historico.length < 5 then none
  else
    let u5 := ultimos5 historico
    let delta_atual := |novo_rssi - u5.getLastD 0|
    if delta_atual ≥ FAST_FADING_THRESHOLD then some "Fast Fading"
    else if 5 ≤ u5.length ∧ isDeclining u5 = true ∧
        u5.headD 0 - u5.getLastD 0 ≥ SLOW_FADING_THRESHOLD then
      some "Slow Fading / Shadowing"
    else if MULTIPATH_OSCILLATION_COUNT ≤ oscilacoes u5 then
      some "Multipath Fading"
    else if delta_atual ≥ MODERATE_VARIATION_THRESHOLD then
      some "Variacao Moderada"
    else none

end FadingDetector

/-- Structured result of WiFiDataCollector.get_wifi_info: rssi may be absent
when the netsh output carries no signal line; canal likewise. -/
structure WifiInfo where
  rssi : Option ℚ
  canal : Option Nat
  frequencia : String
deriving Repr, DecidableEq

/-- One row of the session DataFrame (columns of app.py line 273). -/
structure Row where
  timestamp : String
  rssi : ℚ
  canal : Option Nat
  frequencia : String
  evento : Option String
deriving Repr, DecidableEq

/-- The Streamlit session state fields the monitoring loop touches. -/
structure SessionState where
  data : List Row
  monitoring : Bool
  ultimo_relatorio : String
deriving Repr, DecidableEq

/-- External inputs consumed by one tick of the loop: the sampler result
(none models the get_wifi_info failure path that returns None), the
timestamp string, and the collaborator response used if the tick issues an
analysis request (ok carries the model answer, error the exception text). -/
structure TickInput where
  wifi : Option WifiInfo
  ts : String
  collab : Except String String
deriving Repr

namespace AIAnalyzer

/-- Embeds the AIAnalyzer constructor line
client = Groq(api_key=api_key) if api_key else None: the client exists
exactly when the key is present and truthy (a nonempty string). -/
def mkClient (api_key : Option String) : Bool :=
  match api_key with
  | none => false
  | some k => !(k == "")

/-- Embeds AIAnalyzer.analyze_fading (app.py lines 199 to 256).  The network
call is external, so the collaborator response is an input; the returned
pair is the report string together with a flag recording whether the
collaborator was contacted at all.  Without a client the fixed error string
is returned before any request is built. -/
def analyze_fading (hasClient : Bool) (resp : Except String String) :
    String × Bool :=
  if hasClient = false then ("Erro: API Key ausente.", false)
  else
    match resp with
    | Except.ok content => (content, true)
    | Except.error e => ("Erro na IA: " ++ e, true)

end AIAnalyzer

/-- The rssi column of the session DataFrame. -/
def rssiCol (data : List Row) : List ℚ := data.map Row.rssi

/-- Embeds one invocation of collect_and_process_data (app.py lines 706 to
765).  Returns the new session state and a flag that is true exactly when
st.rerun() is reached, i.e. when the loop schedules another tick.  When
monitoring is off the body is skipped and no rerun happens; when sampling
fails the state is untouched but the rerun still fires; on success the
sample is classified against the log before being appended, and a detected
event dispatches one synchronous analysis request whose result becomes
ultimo_relatorio. -/
def tick (hasClient : Bool) (s : SessionState) (inp : TickInput) :
    SessionState × Bool :=
  if s.monitoring then
    match inp.wifi with
    | none => (s, true)
    | some w =>
      match w.rssi with
      | none => (s, true)
      | some r =>
        let evento := FadingDetector.detect_fading r (rssiCol s.data)
        let data2 := s.data ++ [⟨inp.ts, r, w.canal, w.frequencia, evento⟩]
        match evento with
        | none => ({ s with data := data2 }, true)
        | some _ =>
          let relatorio := (AIAnalyzer.analyze_fading hasClient inp.collab).1
          ({ s with data := data2, ultimo_relatorio := relatorio }, true)
  else (s, false)

/-- Dropping fewer elements than the length preserves the last element. -/
lemma getLast?_drop_eq (l : List ℚ) (n : Nat) (h : n < l.length) :
    (l.drop n).getLast? = l.getLast? := by
  induction l generalizing n with
  | nil => simp at h
  | cons a t ih =>
    cases n with
    | zero => simp
    | succ m =>
      have hm : m < t.length := by simpa using h
      rw [List.drop_succ_cons, ih m hm]
      cases t with
      | nil => simp at hm
      | cons b u => simp

/-- On a history of at least five samples, the last element of the
five-sample window is the last logged sample. -/
lemma ultimos5_getLastD (h : List ℚ) (hlen : 5 ≤ h.length) :
    (ultimos5 h).getLastD 0 = h.getLastD 0 := by
  unfold ultimos5
  rw [List.getLastD_eq_getLast?, List.getLastD_eq_getLast?,
    getLast?_drop_eq h (h.length - 5) (by omega)]

/-- When the history ends in a block of exactly five samples, the window is
that block: earlier samples are irrelevant. -/
lemma ultimos5_append (pre w : List ℚ) (hw : w.length = 5) :
    ultimos5 (pre ++ w) = w := by
  unfold ultimos5
  rw [List.length_append, hw]
  have : pre.length + 5 - 5 = pre.length := by omega
  rw [this, List.drop_left]

/-- The five-sample window of a sufficient history has length five. -/
lemma ultimos5_length (h : List ℚ) (hlen : 5 ≤ h.length) :
    (ultimos5 h).length = 5 := by
  unfold ultimos5
  rw [List.length_drop]
  omega

/-- C3: for every classifier call with a sufficient window, an absolute
delta of at least the fast threshold (10 dBm) against the sample
immediately preceding the current one in the log yields Fast Fading,
regardless of any later rule: rule 1 is checked first and shadows all
later rules. -/
theorem C3_fast_fading (novo : ℚ) (h : List ℚ) (hlen : 5 ≤ h.length)
    (hdelta : |novo - h.getLastD 0| ≥ 10) :
    FadingDetector.detect_fading novo h = some "Fast Fading" := by
  unfold FadingDetector.detect_fading
  rw [if_neg (by omega)]
  simp only [ultimos5_getLastD h hlen]
  rw [if_pos (by simpa [FAST_FADING_THRESHOLD] using hdelta)]

/-- C3 witness: consecutive samples -50 then -61 (delta 11) give Fast
Fading on a concrete sufficient window. -/
theorem C3_fast_fading_witness :
    FadingDetector.detect_fading (-61)
      ([-52, -51, -50, -50, -50] : List ℚ) = some "Fast Fading" :=
  C3_fast_fading (-61) [-52, -51, -50, -50, -50] (by norm_num)
    (by norm_num)

/-- C4: if the window inclusive of the current sample has fewer than five
entries, the classifier returns no category (cold-start guard, and a total
function: no error). -/
theorem C4_cold_start (novo : ℚ) (h : List ℚ) (hlen : h.length + 1 < 5) :
    FadingDetector.detect_fading novo h = none := by
  unfold FadingDetector.detect_fading
  rw [if_pos (by omega)]

/-- C4 witness: a three-sample history classifies to no category. -/
theorem C4_cold_start_witness :
    FadingDetector.detect_fading (-61) ([-50, -50, -50] : List ℚ) = none :=
  C4_cold_start (-61) [-50, -50, -50] (by norm_num)

/-- C1 counterexample: in the call with history [-49, -50, -52, -54, -56]
and current sample -58, the Fast Fading rule does not fire, and the window
of the last five rssi values with the current sample included is
[-50, -52, -54, -56, -58]: non-increasing at every consecutive pair with
total drop 8 >= 8.  The claim then demands Slow Fading, but the code uses
the five logged samples [-49, ..., -56], whose total drop is only 7, and
returns no category. -/
theorem C1_counterexample :
    (List.drop 1 ([-49, -50, -52, -54, -56] : List ℚ) ++ [-58] =
      ([-50, -52, -54, -56, -58] : List ℚ)) ∧
    isDeclining ([-50, -52, -54, -56, -58] : List ℚ) = true ∧
    ((-50 : ℚ) - (-58) ≥ 8) ∧
    |(-58 : ℚ) - (-56)| < 10 ∧
    FadingDetector.detect_fading (-58) ([-49, -50, -52, -54, -56] : List ℚ)
      = none := by
  refine ⟨by norm_num, by norm_num [isDeclining], by norm_num, by norm_num, ?_⟩
  norm_num [FadingDetector.detect_fading, ultimos5, isDeclining, oscilacoes,
    FAST_FADING_THRESHOLD, SLOW_FADING_THRESHOLD, MODERATE_VARIATION_THRESHOLD,
    MULTIPATH_OSCILLATION_COUNT, MULTIPATH_OSCILLATION_THRESHOLD]

/-- C1 amended: when the Fast Fading rule did not fire, if the window of
the last five LOGGED rssi values (current sample excluded) is
non-increasing at every consecutive pair and its total drop is at least
the slow threshold (8 dBm), the classifier returns Slow Fading; in
particular a logged window [-50, -52, -54, -56, -58] with current sample
-58 is classified Slow Fading. -/
theorem C1_slow_fading_amended (novo : ℚ) (pre w : List ℚ)
    (hw : w.length = 5)
    (hfast : |novo - w.getLastD 0| < 10)
    (hdecl : isDeclining w = true)
    (hdrop : w.headD 0 - w.getLastD 0 ≥ 8) :
    FadingDetector.detect_fading novo (pre ++ w) =
      some "Slow Fading / Shadowing" := by
  unfold FadingDetector.detect_fading
  rw [if_neg (by simp [List.length_append, hw])]
  simp only [ultimos5_append pre w hw]
  rw [if_neg (not_le.mpr (by simpa [FAST_FADING_THRESHOLD] using hfast))]
  rw [if_pos ⟨by omega, hdecl,
    by simpa [SLOW_FADING_THRESHOLD] using hdrop⟩]

/-- C1 amended witness: the logged window [-50, -52, -54, -56, -58] with
current sample -58 yields Slow Fading. -/
theorem C1_slow_fading_amended_witness :
    FadingDetector.detect_fading (-58)
      (([] : List ℚ) ++ [-50, -52, -54, -56, -58]) =
      some "Slow Fading / Shadowing" :=
  C1_slow_fading_amended (-58) [] [-50, -52, -54, -56, -58] (by norm_num)
    (by norm_num) (by norm_num [isDeclining]) (by norm_num)

/-- C5: when neither the Fast Fading rule (delta against the previous
logged sample below 10 in magnitude) nor the Slow Fading rule fired, and
at least three consecutive pairs of the five-sample window differ by at
least the oscillation threshold in absolute value, the classifier returns
Multipath Fading. -/
theorem C5_multipath (novo : ℚ) (h : List ℚ) (hlen : 5 ≤ h.length)
    (hfast : |novo - h.getLastD 0| < 10)
    (hslow : ¬(isDeclining (ultimos5 h) = true ∧
      (ultimos5 h).headD 0 - (ultimos5 h).getLastD 0 ≥ 8))
    (hosc : 3 ≤ oscilacoes (ultimos5 h)) :
    FadingDetector.detect_fading novo h = some "Multipath Fading" := by
  unfold FadingDetector.detect_fading
  rw [if_neg (by omega)]
  rw [if_neg (not_le.mpr (by
    rw [ultimos5_getLastD h hlen]
    simpa [FAST_FADING_THRESHOLD] using hfast))]
  rw [if_neg (fun hc => hslow
    ⟨hc.2.1, by simpa [SLOW_FADING_THRESHOLD] using hc.2.2⟩)]
  rw [if_pos (by simpa [MULTIPATH_OSCILLATION_COUNT] using hosc)]

/-- C5 witness: the oscillating window [-55, -50, -55, -51, -56] with
current sample -52 yields Multipath Fading (three pair deltas of
magnitude 5). -/
theorem C5_multipath_witness :
    FadingDetector.detect_fading (-52)
      ([-55, -50, -55, -51, -56] : List ℚ) = some "Multipath Fading" :=
  C5_multipath (-52) [-55, -50, -55, -51, -56] (by norm_num)
    (by norm_num)
    (by norm_num [ultimos5, isDeclining])
    (by norm_num [ultimos5, oscilacoes, MULTIPATH_OSCILLATION_THRESHOLD])

/-- C6 counterexample: the window formed by the last four logged samples
and the current one is exactly [-50, -55, -51, -56, -52], yet the code
classifies this call as Multipath Fading, not no category: the fifth most
recent logged sample -55 adds a third oscillation pair. -/
theorem C6_counterexample :
    (List.drop 1 ([-55, -50, -55, -51, -56] : List ℚ) ++ [-52] =
      ([-50, -55, -51, -56, -52] : List ℚ)) ∧
    FadingDetector.detect_fading (-52) ([-55, -50, -55, -51, -56] : List ℚ)
      = some "Multipath Fading" := by
  refine ⟨by norm_num, ?_⟩
  norm_num [FadingDetector.detect_fading, ultimos5, isDeclining, oscilacoes,
    FAST_FADING_THRESHOLD, SLOW_FADING_THRESHOLD, MODERATE_VARIATION_THRESHOLD,
    MULTIPATH_OSCILLATION_COUNT, MULTIPATH_OSCILLATION_THRESHOLD]

/-- C6 amended: with default thresholds, a call whose current sample is
-52 and whose log ends in [-50, -55, -51, -56] (so the window with the
current sample included is [-50, -55, -51, -56, -52]) returns no category,
provided the fifth most recent logged sample is within 5 dBm of -50;
otherwise the extra consecutive pair reaches the oscillation threshold and
the call is classified Multipath Fading instead. -/
theorem C6_no_category_amended (pre : List ℚ) (h0 : ℚ)
    (hh0 : |h0 - (-50)| < 5) :
    FadingDetector.detect_fading (-52)
      (pre ++ [h0, -50, -55, -51, -56]) = none := by
  have hwin := ultimos5_append pre [h0, -50, -55, -51, -56] (by norm_num)
  have hno : ¬((5 : ℚ) ≤ |h0 + 50|) := by
    refine not_le.mpr ?_
    have : h0 - (-50) = h0 + 50 := by ring
    rw [this] at hh0
    exact hh0
  unfold FadingDetector.detect_fading
  rw [if_neg (by simp [List.length_append])]
  simp only [hwin]
  norm_num [isDeclining, oscilacoes, hno,
    FAST_FADING_THRESHOLD, SLOW_FADING_THRESHOLD, MODERATE_VARIATION_THRESHOLD,
    MULTIPATH_OSCILLATION_COUNT, MULTIPATH_OSCILLATION_THRESHOLD]

/-- C6 amended witness: with fifth most recent logged sample -50 the call
with window [-50, -55, -51, -56, -52] returns no category. -/
theorem C6_no_category_amended_witness :
    FadingDetector.detect_fading (-52)
      (([] : List ℚ) ++ [-50, -50, -55, -51, -56]) = none :=
  C6_no_category_amended [] (-50) (by norm_num)

/-- A history of exactly five samples is its own window. -/
lemma ultimos5_self (w : List ℚ) (hw : w.length = 5) : ultimos5 w = w := by
  unfold ultimos5
  rw [hw]
  simp

/-- The rerun flag of a tick equals the monitoring flag: the loop
reschedules itself exactly when monitoring is on, on every branch. -/
lemma tick_rerun (hc : Bool) (s : SessionState) (inp : TickInput) :
    (tick hc s inp).2 = s.monitoring := by
  rcases inp with ⟨wifi, ts, collab⟩
  cases hm : s.monitoring with
  | false => simp [tick, hm]
  | true =>
    cases wifi with
    | none => simp [tick, hm]
    | some w =>
      rcases w with ⟨rssi, canal, freq⟩
      cases rssi with
      | none => simp [tick, hm]
      | some r =>
        cases hd : FadingDetector.detect_fading r (rssiCol s.data) <;>
          simp [tick, hm, hd]

/-- C2: the five-sample window used by the slow-fading and multipath tests
is taken from the log before the current sample is appended.  Four parts:
samples older than the last five logged ones never change the result; the
current sample enters only through the absolute delta against the most
recent logged sample; no category is assigned unless the log already holds
at least five samples before the current one; and the monitoring loop
records, in the appended row, the category computed against the
pre-append log. -/
theorem C2_window_excludes_current :
    (∀ (novo : ℚ) (pre w : List ℚ), w.length = 5 →
      FadingDetector.detect_fading novo (pre ++ w) =
        FadingDetector.detect_fading novo w) ∧
    (∀ (novo1 novo2 : ℚ) (h : List ℚ),
      |novo1 - h.getLastD 0| = |novo2 - h.getLastD 0| →
      FadingDetector.detect_fading novo1 h =
        FadingDetector.detect_fading novo2 h) ∧
    (∀ (novo : ℚ) (h : List ℚ), h.length < 5 →
      FadingDetector.detect_fading novo h = none) ∧
    (∀ (hc : Bool) (s : SessionState) (inp : TickInput)
      (w : WifiInfo) (r : ℚ),
      s.monitoring = true → inp.wifi = some w → w.rssi = some r →
      (tick hc s inp).1.data = s.data ++
        [⟨inp.ts, r, w.canal, w.frequencia,
          FadingDetector.detect_fading r (rssiCol s.data)⟩]) := by
  refine ⟨?_, ?_, ?_, ?_⟩
  · intro novo pre w hw
    have h1 : ultimos5 (pre ++ w) = w := ultimos5_append pre w hw
    have h2 : ultimos5 w = w := ultimos5_self w hw
    unfold FadingDetector.detect_fading
    simp only [h1, h2]
    rw [if_neg (show ¬((pre ++ w).length < 5) by simp [List.length_append, hw])]
    rw [if_neg (show ¬(w.length < 5) by omega)]
  · intro novo1 novo2 h heq
    unfold FadingDetector.detect_fading
    by_cases hl : h.length < 5
    · rw [if_pos hl, if_pos hl]
    · have hlast : (ultimos5 h).getLastD 0 = h.getLastD 0 :=
        ultimos5_getLastD h (by omega)
      rw [if_neg hl, if_neg hl]
      simp only [hlast, heq]
  · intro novo h hl
    unfold FadingDetector.detect_fading
    rw [if_pos hl]
  · intro hc s inp w r hmon hw hr
    cases hd : FadingDetector.detect_fading r (rssiCol s.data) <;>
      simp [tick, hmon, hw, hr, hd]

/-- C2 witness: a sixth, older sample does not change the classification,
and a concrete tick appends the row carrying the category computed on the
pre-append log. -/
theorem C2_window_excludes_current_witness :
    (FadingDetector.detect_fading (-58)
        (([-99] : List ℚ) ++ [-50, -52, -54, -56, -58]) =
      FadingDetector.detect_fading (-58)
        ([-50, -52, -54, -56, -58] : List ℚ)) ∧
    (tick false ⟨[], true, ""⟩
        ⟨some ⟨some (-50), none, "2.4 GHz"⟩, "t0", Except.error "x"⟩).1.data =
      ([] : List Row) ++ [⟨"t0", -50, none, "2.4 GHz",
        FadingDetector.detect_fading (-50) (rssiCol [])⟩] :=
  ⟨C2_window_excludes_current.1 (-58) [-99] [-50, -52, -54, -56, -58]
      (by norm_num),
   C2_window_excludes_current.2.2.2 false ⟨[], true, ""⟩
      ⟨some ⟨some (-50), none, "2.4 GHz"⟩, "t0", Except.error "x"⟩
      ⟨some (-50), none, "2.4 GHz"⟩ (-50) rfl rfl rfl⟩

/-- C7: while monitoring, a tick whose sample acquisition fails (the
collector returned nothing, or a reading without rssi) leaves the session
state exactly as it was: nothing appended, no classification recorded, no
report change; the rerun still fires, and in general a tick fails to
reschedule the loop exactly when monitoring is off, so acquisition
failures never terminate the loop. -/
theorem C7_failed_tick_skipped (hc : Bool) (s : SessionState)
    (inp : TickInput) (hmon : s.monitoring = true)
    (hfail : inp.wifi = none ∨ ∃ w, inp.wifi = some w ∧ w.rssi = none) :
    (tick hc s inp).1 = s ∧ (tick hc s inp).2 = true ∧
    (∀ (s2 : SessionState) (inp2 : TickInput),
      (tick hc s2 inp2).2 = false ↔ s2.monitoring = false) := by
  refine ⟨?_, ?_, ?_⟩
  · rcases hfail with h | ⟨w, hw, hr⟩
    · simp [tick, hmon, h]
    · simp [tick, hmon, hw, hr]
  · rw [tick_rerun, hmon]
  · intro s2 inp2
    rw [tick_rerun]

/-- C7 witness: a concrete failed acquisition leaves a concrete monitoring
state untouched and reruns. -/
theorem C7_failed_tick_skipped_witness :
    (tick false ⟨[⟨"t0", -50, none, "2.4 GHz", none⟩], true, "r"⟩
        ⟨none, "t1", Except.error "x"⟩).1 =
      ⟨[⟨"t0", -50, none, "2.4 GHz", none⟩], true, "r"⟩ ∧
    (tick false ⟨[⟨"t0", -50, none, "2.4 GHz", none⟩], true, "r"⟩
        ⟨none, "t1", Except.error "x"⟩).2 = true ∧
    (∀ (s2 : SessionState) (inp2 : TickInput),
      (tick false s2 inp2).2 = false ↔ s2.monitoring = false) :=
  C7_failed_tick_skipped false
    ⟨[⟨"t0", -50, none, "2.4 GHz", none⟩], true, "r"⟩
    ⟨none, "t1", Except.error "x"⟩ rfl (Or.inl rfl)

/-- C8: when a tick detects an event and the collaborator call fails, the
analyzer returns the failed-report string carrying the reason, and that
string becomes ultimo_relatorio exactly as a success would; the sample row
is still appended, monitoring stays on, and the loop reruns. -/
theorem C8_failed_report_latest (s : SessionState) (inp : TickInput)
    (w : WifiInfo) (r : ℚ) (e msg : String)
    (hmon : s.monitoring = true)
    (hw : inp.wifi = some w) (hr : w.rssi = some r)
    (hev : FadingDetector.detect_fading r (rssiCol s.data) = some e)
    (hcol : inp.collab = Except.error msg) :
    (tick true s inp).1.ultimo_relatorio = "Erro na IA: " ++ msg ∧
    (tick true s inp).1.data =
      s.data ++ [⟨inp.ts, r, w.canal, w.frequencia, some e⟩] ∧
    (tick true s inp).1.monitoring = true ∧
    (tick true s inp).2 = true := by
  refine ⟨?_, ?_, ?_, ?_⟩
  · simp [tick, hmon, hw, hr, hev, hcol, AIAnalyzer.analyze_fading]
  · simp [tick, hmon, hw, hr, hev]
  · simp [tick, hmon, hw, hr, hev]
  · rw [tick_rerun, hmon]

/-- C8 witness: a concrete fast-fading tick with a failing collaborator
stores the failure reason as the latest report and keeps going. -/
theorem C8_failed_report_latest_witness :
    ((tick true
        ⟨[⟨"t0", -50, none, "g", none⟩, ⟨"t1", -50, none, "g", none⟩,
          ⟨"t2", -50, none, "g", none⟩, ⟨"t3", -50, none, "g", none⟩,
          ⟨"t4", -50, none, "g", none⟩], true, ""⟩
        ⟨some ⟨some (-61), none, "g"⟩, "t5", Except.error "timeout"⟩).1
      ).ultimo_relatorio = "Erro na IA: " ++ "timeout" ∧
    (tick true
        ⟨[⟨"t0", -50, none, "g", none⟩, ⟨"t1", -50, none, "g", none⟩,
          ⟨"t2", -50, none, "g", none⟩, ⟨"t3", -50, none, "g", none⟩,
          ⟨"t4", -50, none, "g", none⟩], true, ""⟩
        ⟨some ⟨some (-61), none, "g"⟩, "t5", Except.error "timeout"⟩).1.data =
      [⟨"t0", -50, none, "g", none⟩, ⟨"t1", -50, none, "g", none⟩,
        ⟨"t2", -50, none, "g", none⟩, ⟨"t3", -50, none, "g", none⟩,
        ⟨"t4", -50, none, "g", none⟩] ++
        [⟨"t5", -61, none, "g", some "Fast Fading"⟩] ∧
    ((tick true
        ⟨[⟨"t0", -50, none, "g", none⟩, ⟨"t1", -50, none, "g", none⟩,
          ⟨"t2", -50, none, "g", none⟩, ⟨"t3", -50, none, "g", none⟩,
          ⟨"t4", -50, none, "g", none⟩], true, ""⟩
        ⟨some ⟨some (-61), none, "g"⟩, "t5", Except.error "timeout"⟩).1
      ).monitoring = true ∧
    (tick true
        ⟨[⟨"t0", -50, none, "g", none⟩, ⟨"t1", -50, none, "g", none⟩,
          ⟨"t2", -50, none, "g", none⟩, ⟨"t3", -50, none, "g", none⟩,
          ⟨"t4", -50, none, "g", none⟩], true, ""⟩
        ⟨some ⟨some (-61), none, "g"⟩, "t5", Except.error "timeout"⟩).2 =
      true :=
  C8_failed_report_latest
    ⟨[⟨"t0", -50, none, "g", none⟩, ⟨"t1", -50, none, "g", none⟩,
      ⟨"t2", -50, none, "g", none⟩, ⟨"t3", -50, none, "g", none⟩,
      ⟨"t4", -50, none, "g", none⟩], true, ""⟩
    ⟨some ⟨some (-61), none, "g"⟩, "t5", Except.error "timeout"⟩
    ⟨some (-61), none, "g"⟩ (-61) "Fast Fading" "timeout" rfl rfl rfl
    (by
      norm_num [rssiCol, FadingDetector.detect_fading, ultimos5, isDeclining,
        oscilacoes, FAST_FADING_THRESHOLD, SLOW_FADING_THRESHOLD,
        MODERATE_VARIATION_THRESHOLD, MULTIPATH_OSCILLATION_COUNT,
        MULTIPATH_OSCILLATION_THRESHOLD])
    rfl

/-- C9: analysis requests are dispatched synchronously inside their tick,
so at most one is ever outstanding; whenever a second request is issued
after an earlier tick, the report stored once the second request completes
is the second request's own result, so the older result can never end up
as the latest report after the newer one has been set. -/
theorem C9_newest_completion_wins (hc : Bool) (s : SessionState)
    (i1 i2 : TickInput) (w : WifiInfo) (r : ℚ) (e : String)
    (hmon : (tick hc s i1).1.monitoring = true)
    (hw : i2.wifi = some w) (hr : w.rssi = some r)
    (hev : FadingDetector.detect_fading r
      (rssiCol (tick hc s i1).1.data) = some e) :
    (tick hc (tick hc s i1).1 i2).1.ultimo_relatorio =
      (AIAnalyzer.analyze_fading hc i2.collab).1 := by
  set s1 := (tick hc s i1).1 with hs1
  simp [tick, hmon, hw, hr, hev]

/-- C9 witness: two consecutive event ticks; after the second completes
the latest report is the second collaborator answer R2, not R1. -/
theorem C9_newest_completion_wins_witness :
    ((tick true
      (tick true
        ⟨[⟨"t0", -50, none, "g", none⟩, ⟨"t1", -50, none, "g", none⟩,
          ⟨"t2", -50, none, "g", none⟩, ⟨"t3", -50, none, "g", none⟩,
          ⟨"t4", -50, none, "g", none⟩], true, ""⟩
        ⟨some ⟨some (-61), none, "g"⟩, "t5", Except.ok "R1"⟩).1
      ⟨some ⟨some (-50), none, "g"⟩, "t6", Except.ok "R2"⟩).1
      ).ultimo_relatorio =
      (AIAnalyzer.analyze_fading true (Except.ok "R2")).1 :=
  C9_newest_completion_wins true
    ⟨[⟨"t0", -50, none, "g", none⟩, ⟨"t1", -50, none, "g", none⟩,
      ⟨"t2", -50, none, "g", none⟩, ⟨"t3", -50, none, "g", none⟩,
      ⟨"t4", -50, none, "g", none⟩], true, ""⟩
    ⟨some ⟨some (-61), none, "g"⟩, "t5", Except.ok "R1"⟩
    ⟨some ⟨some (-50), none, "g"⟩, "t6", Except.ok "R2"⟩
    ⟨some (-50), none, "g"⟩ (-50) "Fast Fading"
    (by
      norm_num [tick, rssiCol, FadingDetector.detect_fading, ultimos5,
        isDeclining, oscilacoes, AIAnalyzer.analyze_fading,
        FAST_FADING_THRESHOLD, SLOW_FADING_THRESHOLD,
        MODERATE_VARIATION_THRESHOLD, MULTIPATH_OSCILLATION_COUNT,
        MULTIPATH_OSCILLATION_THRESHOLD])
    rfl rfl
    (by
      norm_num [tick, rssiCol, FadingDetector.detect_fading, ultimos5,
        isDeclining, oscilacoes, AIAnalyzer.analyze_fading,
        FAST_FADING_THRESHOLD, SLOW_FADING_THRESHOLD,
        MODERATE_VARIATION_THRESHOLD, MULTIPATH_OSCILLATION_COUNT,
        MULTIPATH_OSCILLATION_THRESHOLD])

/-- C10: with no API key configured the client is absent, and every call
to analyze_fading returns the fixed error string without contacting the
collaborator (the contact flag is false) and without failing (the function
is total). -/
theorem C10_missing_api_key (resp : Except String String) :
    AIAnalyzer.analyze_fading (AIAnalyzer.mkClient none) resp =
      ("Erro: API Key ausente.", false) := by
  simp [AIAnalyzer.analyze_fading, AIAnalyzer.mkClient]

/-- C10 witness: concrete instantiation with an ok response. -/
theorem C10_missing_api_key_witness :
    AIAnalyzer.analyze_fading (AIAnalyzer.mkClient none) (Except.ok "hi") =
      ("Erro: API Key ausente.", false) :=
  C10_missing_api_key (Except.ok "hi")

end WifiFading
